import Mathlib

/-!
# playto

A shallow embedding of `src/playto/main.c`, a command-line player that routes
an audio file to a named output device through the platform audio frameworks.

The program is a sequence of framework calls.  The frameworks are not part
of the program, so every answer they give (status codes, handles, device
lists, names, stream configurations, file properties) is a field of a
`Platform` record, and every effect of the program (a framework call, a write
to standard output or standard error) is an `Event`.  A piece of the program
is a value of `Run α`: the events it produced, in order, and how it ended,
with a returned value or with `exit`.  Integers wrap as their C types do, and
the `double` arithmetic of the duration is computed by `Float64`, with the
rounding of IEEE 754.
-/

namespace Playto

/-! ## Machine integers -/

/-- Conversion to `UInt32`: reduction modulo 2^32. -/
def toUInt32 (x : Int) : Nat := (x % 4294967296).toNat

/-- Conversion to `int` / `SInt32`: two's complement wrap-around. -/
def toInt32 (x : Int) : Int :=
  if x % 4294967296 < 2147483648 then x % 4294967296 else x % 4294967296 - 4294967296

/-- Conversion to `UInt64`: reduction modulo 2^64. -/
def toUInt64 (x : Nat) : Nat := x % 18446744073709551616

/-- A value of type `double` / `Float64` (IEEE 754 binary64): `finite neg m e`
is the number m·2^e with the sign `neg`, beside the two infinities and NaN.
The results of the operations below have `m` below 2^53 and `e` between -1074
and 971. -/
inductive Float64 where
  | finite (neg : Bool) (m : Nat) (e : Int)
  | inf (neg : Bool)
  | nan
  deriving DecidableEq, Repr

/-- The position of the leading bit of `n`, for `n` at most `fuel`. -/
def ilog2 : Nat → Nat → Nat
  | 0, _ => 0
  | fuel + 1, n => if n < 2 then 0 else ilog2 fuel (n / 2) + 1

/-- The `double` nearest to the quotient n/d with the sign `neg`, ties going to
the even significand: the rounding every operation on `double` ends with.
`e` is the exponent of the last kept bit, `q` and `r` the quotient and
remainder of the scaled division. -/
def Float64.round (neg : Bool) (n d : Nat) : Float64 :=
  if n = 0 then .finite neg 0 0
  else
    let k : Int := (ilog2 n n : Int) - (ilog2 d d : Int)
    let E : Int := if d * 2 ^ k.toNat ≤ n * 2 ^ (-k).toNat then k else k - 1
    let e : Int := max (E - 52) (-1074)
    let num := n * 2 ^ (-e).toNat
    let den := d * 2 ^ e.toNat
    let q := num / den
    let r := num % den
    let m := if den < 2 * r ∨ (2 * r = den ∧ q % 2 = 1) then q + 1 else q
    if m = 9007199254740992 then
      (if e + 1 > 971 then .inf neg else .finite neg 4503599627370496 (e + 1))
    else if e > 971 then .inf neg else .finite neg m e

/-- Conversion of a `UInt64` to `double`. -/
def Float64.ofUInt64 (n : Nat) : Float64 := Float64.round false n 1

/-- The product of two `double`s. -/
def Float64.mul : Float64 → Float64 → Float64
  | .finite s1 m1 e1, .finite s2 m2 e2 =>
    Float64.round (s1 != s2) (m1 * m2 * 2 ^ (e1 + e2).toNat) (2 ^ (-(e1 + e2)).toNat)
  | .finite s1 m1 _, .inf s2 => if m1 = 0 then .nan else .inf (s1 != s2)
  | .inf s1, .finite s2 m2 _ => if m2 = 0 then .nan else .inf (s1 != s2)
  | .inf s1, .inf s2 => .inf (s1 != s2)
  | .nan, _ => .nan
  | .finite _ _ _, .nan => .nan
  | .inf _, .nan => .nan

/-- The quotient of two `double`s. -/
def Float64.div : Float64 → Float64 → Float64
  | .finite s1 m1 e1, .finite s2 m2 e2 =>
    if m2 = 0 then (if m1 = 0 then .nan else .inf (s1 != s2))
    else Float64.round (s1 != s2) (m1 * 2 ^ (e1 - e2).toNat) (m2 * 2 ^ (e2 - e1).toNat)
  | .finite s1 _ _, .inf s2 => .finite (s1 != s2) 0 0
  | .inf s1, .finite s2 _ _ => .inf (s1 != s2)
  | .inf _, .inf _ => .nan
  | .nan, _ => .nan
  | .finite _ _ _, .nan => .nan
  | .inf _, .nan => .nan

/-- The cast `(useconds_t)x` of a `double` to the 32-bit `useconds_t`: the
fraction is dropped.  For a value out of the range of `useconds_t` the C
standard fixes no result; the low 32 bits of the integer are taken here (and
0 for an infinity or a NaN). -/
def Float64.toUseconds : Float64 → Nat
  | .finite neg m e =>
    let t : Nat := m * 2 ^ e.toNat / 2 ^ (-e).toNat
    toUInt32 (if neg then -(t : Int) else (t : Int))
  | .inf _ => 0
  | .nan => 0

/-- The value of a byte read through the (signed) type `char`. -/
def toChar (b : Nat) : Int := if b % 256 < 128 then (b % 256 : Nat) else (b % 256 : Nat) - 256

/-! ## C strings and the C library -/

/-- The bytes of an ASCII literal of the source. -/
def ascii (s : String) : List Nat := s.toList.map Char.toNat

/-- The C string held in a byte buffer: the bytes before the first NUL
(the end of the list stands for a NUL). -/
def cstr (buf : List Nat) : List Nat := buf.takeWhile (fun b => b ≠ 0)

/-- The C library `strcmp`: compares byte by byte up to the first difference or
the terminating NUL. -/
def strcmp : List Nat → List Nat → Int
  | [], [] => 0
  | [], b :: _ => 0 - (b : Int)
  | a :: _, [] => (a : Int)
  | a :: s, b :: t => if a = b then (if a = 0 then 0 else strcmp s t) else (a : Int) - (b : Int)

/-- The C library `isprint` in the "C" locale (the program never calls
`setlocale`): true for the codes 0x20 to 0x7E only. -/
def isprint (c : Int) : Bool := decide (32 ≤ c) && decide (c ≤ 126)

/-- Digits of `n` in base ten prepended to `acc`, most significant first. -/
def utoaAux : Nat → Nat → List Nat → List Nat
  | 0, _, acc => acc
  | fuel + 1, n, acc =>
    if n < 10 then (48 + n) :: acc else utoaAux fuel (n / 10) ((48 + n % 10) :: acc)

/-- What the conversion `%d` prints for the integer `v`. -/
def itoa (v : Int) : List Nat :=
  if v < 0 then 45 :: utoaAux (v.natAbs + 1) v.natAbs [] else utoaAux (v.natAbs + 1) v.natAbs []

/-- Memory of a local array: the byte at each offset. -/
abbrev Mem := Nat → Nat

/-- Store one byte. -/
def poke (mem : Mem) (i v : Nat) : Mem := fun j => if j = i then v else mem j

/-- Store consecutive bytes from offset `i` on. -/
def pokes (mem : Mem) (i : Nat) : List Nat → Mem
  | [] => mem
  | b :: bs => pokes (poke mem i b) (i + 1) bs

/-- Read the C string at offset `i` of an array with `size` bytes left. -/
def readCStr (mem : Mem) : Nat → Nat → List Nat
  | 0, _ => []
  | size + 1, i => if mem i = 0 then [] else mem i :: readCStr mem size (i + 1)

/-- The call `sprintf(str, "%d", v)`: the digits and the terminating NUL. -/
def sprintf_d (str : Mem) (v : Int) : Mem := pokes str 0 (itoa v ++ [0])

/-- The bytes of a `UInt32` in big-endian order: what memory holds after
`*(UInt32 *)p = CFSwapInt32HostToBig(x)`. -/
def bigEndianBytes (x : Nat) : List Nat :=
  [x / 16777216 % 256, x / 65536 % 256, x / 256 % 256, x % 256]

/-! ## Framework types -/

/-- Property selectors of the audio hardware layer used by the program. -/
inductive AudioObjectPropertySelector where
  | kAudioHardwarePropertyDevices
  | kAudioDevicePropertyDeviceName
  | kAudioDevicePropertyStreamConfiguration
  deriving DecidableEq, Repr

/-- Property scopes of the audio hardware layer used by the program. -/
inductive AudioObjectPropertyScope where
  | kAudioObjectPropertyScopeGlobal
  | kAudioDevicePropertyScopeInput
  | kAudioDevicePropertyScopeOutput
  deriving DecidableEq, Repr

/-- Address of a property of an audio object. -/
structure AudioObjectPropertyAddress where
  mSelector : AudioObjectPropertySelector
  mScope : AudioObjectPropertyScope
  mElement : Nat
  deriving DecidableEq, Repr

/-- Four-character codes naming audio components. -/
inductive OSType where
  | kAudioUnitType_Output
  | kAudioUnitSubType_DefaultOutput
  | kAudioUnitType_Generator
  | kAudioUnitSubType_AudioFilePlayer
  | kAudioUnitManufacturer_Apple
  deriving DecidableEq, Repr

/-- Description of an audio component (the flag fields stay zero). -/
structure AudioComponentDescription where
  componentType : OSType
  componentSubType : OSType
  componentManufacturer : OSType
  deriving DecidableEq, Repr

/-- Audio unit properties set by the program. -/
inductive AudioUnitPropertyID where
  | kAudioUnitProperty_ScheduledFileIDs
  | kAudioUnitProperty_ScheduledFileRegion
  | kAudioUnitProperty_ScheduledFilePrime
  | kAudioUnitProperty_ScheduleStartTimeStamp
  | kAudioOutputUnitProperty_CurrentDevice
  deriving DecidableEq, Repr

/-- Audio unit scopes used by the program. -/
inductive AudioUnitScope where
  | kAudioUnitScope_Global
  deriving DecidableEq, Repr

/-- Audio file properties read by the program. -/
inductive AudioFilePropertyID where
  | kAudioFilePropertyDataFormat
  | kAudioFilePropertyAudioDataPacketCount
  deriving DecidableEq, Repr

open AudioObjectPropertySelector AudioObjectPropertyScope OSType AudioUnitPropertyID
  AudioUnitScope AudioFilePropertyID

/-- The audio object that stands for the whole system. -/
def kAudioObjectSystemObject : Nat := 1

/-- The master element of a property address. -/
def kAudioObjectPropertyElementMaster : Nat := 0

/-- Flag of a time stamp whose sample time is valid. -/
def kAudioTimeStampSampleTimeValid : Nat := 1

/-- Permission flag for reading an audio file. -/
def kAudioFileReadPermission : Nat := 1

/-- Size in bytes of an `AudioDeviceID`. -/
def sizeofAudioDeviceID : Nat := 4

/-- The fields of the stream description the program reads. -/
structure AudioStreamBasicDescription where
  mSampleRate : Float64
  mFramesPerPacket : Nat
  deriving DecidableEq, Repr

/-- A time stamp; the fields not listed are zeroed by `memset`.  The sample
times the program stores are the integers 0 and -1. -/
structure AudioTimeStamp where
  mSampleTime : Int
  mFlags : Nat
  deriving DecidableEq, Repr

/-- The region of a file scheduled on the file player unit. -/
structure ScheduledAudioFileRegion where
  mTimeStamp : AudioTimeStamp
  mCompletionProc : Nat
  mCompletionProcUserData : Nat
  mAudioFile : Nat
  mLoopCount : Nat
  mStartFrame : Int
  mFramesToPlay : Nat
  deriving DecidableEq, Repr

/-- The value handed to `AudioUnitSetProperty`. -/
inductive PropertyValue where
  | fileID (inputFile : Nat)
  | region (rgn : ScheduledAudioFileRegion)
  | uint32 (v : Nat)
  | timeStamp (t : AudioTimeStamp)
  | deviceID (deviceId : Nat)
  deriving DecidableEq, Repr

/-- The player state of the source. -/
structure MyAUGraphPlayer where
  inputFormat : AudioStreamBasicDescription
  inputFile : Nat
  graph : Nat
  fileAU : Nat
  deriving DecidableEq, Repr

/-! ## Effects -/

/-- A call into the platform frameworks, with the arguments the program passes. -/
inductive Call where
  | AudioObjectGetPropertyDataSize (obj : Nat) (addr : AudioObjectPropertyAddress)
  | AudioObjectGetPropertyData (obj : Nat) (addr : AudioObjectPropertyAddress)
  | NewAUGraph
  | AUGraphAddNode (graph : Nat) (desc : AudioComponentDescription)
  | AUGraphOpen (graph : Nat)
  | AUGraphNodeInfo (graph node : Nat)
  | AUGraphConnectNodeInput (graph src srcOutput dst dstInput : Nat)
  | AUGraphInitialize (graph : Nat)
  | AUGraphStart (graph : Nat)
  | AUGraphStop (graph : Nat)
  | AUGraphUninitialize (graph : Nat)
  | AUGraphClose (graph : Nat)
  | AudioUnitSetProperty (unit : Nat) (prop : AudioUnitPropertyID) (scope : AudioUnitScope)
      (element : Nat) (value : PropertyValue)
  | AudioFileOpenURL (url : List Nat) (permissions : Nat)
  | AudioFileGetProperty (file : Nat) (prop : AudioFilePropertyID)
  | AudioFileClose (file : Nat)
  | CFStringCreateWithCString (s : List Nat)
  | CFURLCreateWithFileSystemPath (path : List Nat)
  | CFRelease (url : List Nat)
  | usleep (useconds : Nat)
  deriving DecidableEq, Repr

/-- An observable effect of the program. -/
inductive Event where
  | call (c : Call)
  | stdout (bytes : List Nat)
  | stderr (bytes : List Nat)
  deriving DecidableEq, Repr

/-- How a piece of the program ends. -/
inductive Outcome (α : Type) where
  | ret (a : α)
  | exit (code : Int)
  deriving DecidableEq, Repr

/-- A run of a piece of the program: its events in order, and its end. -/
structure Run (α : Type) where
  events : List Event
  outcome : Outcome α
  deriving DecidableEq, Repr

/-- Sequencing: what follows runs only when the first part returns. -/
def Run.bind {α β : Type} (r : Run α) (f : α → Run β) : Run β :=
  match r.outcome with
  | .ret a => ⟨r.events ++ (f a).events, (f a).outcome⟩
  | .exit code => ⟨r.events, .exit code⟩

instance : Monad Run where
  pure a := ⟨[], .ret a⟩
  bind := Run.bind

/-- A framework call and the answer the platform gives. -/
def call {α : Type} (c : Call) (answer : α) : Run α := ⟨[.call c], .ret answer⟩

/-- Writing to standard output. -/
def printf (bytes : List Nat) : Run Unit := ⟨[.stdout bytes], .ret ()⟩

/-- Writing to standard error. -/
def fprintf_stderr (bytes : List Nat) : Run Unit := ⟨[.stderr bytes], .ret ()⟩

/-- The C library `exit`: the process ends, nothing after it runs. -/
def exit {α : Type} (code : Int) : Run α := ⟨[], .exit code⟩

/-- The stream configuration of a device in one scope, as the hardware layer
answers the two queries of `numChannels`. -/
structure StreamConfiguration where
  sizeStatus : Int
  dataStatus : Int
  mBuffers : List Nat

/-- Everything the platform answers to the program: for each framework call
the status it returns and the value it writes through the output pointer.
An answer depends on the arguments of the call only, not on the moment of
the call. -/
structure Platform where
  /-- indeterminate contents of the uninitialised array `str` of `CheckError` -/
  stack : Mem
  devicesSizeStatus : Int
  devicesDataStatus : Int
  devices : List Nat
  deviceNameStatus : Nat → Int
  deviceName : Nat → List Nat
  streamConfiguration : Nat → AudioObjectPropertyScope → StreamConfiguration
  newAUGraph : Int × Nat
  addNode : Nat → AudioComponentDescription → Int × Nat
  graphOpen : Nat → Int
  nodeInfo : Nat → Nat → Int × Nat
  connectNodeInput : Nat → Nat → Nat → Nat → Nat → Int
  graphInitialize : Nat → Int
  graphStart : Nat → Int
  setProperty : Nat → AudioUnitPropertyID → PropertyValue → Int
  fileOpenURL : List Nat → Int × Nat
  fileDataFormat : Nat → Int × AudioStreamBasicDescription
  filePacketCount : Nat → Int × Nat

/-! ## The program -/

/-- The array `str` of `CheckError` once the code is rendered (lines 33-41):
the four bytes of the code are stored at `str + 1`; when `isprint` holds of
all four the quotes and the NUL are added around them, otherwise `sprintf`
overwrites the array with the decimal digits.  `str` is the indeterminate
initial content of the array. -/
def CheckError.format (str : Mem) (error : Int) : Mem :=
  let str := pokes str 1 (bigEndianBytes (toUInt32 error))
  if isprint (toChar (str 1)) && isprint (toChar (str 2)) && isprint (toChar (str 3))
      && isprint (toChar (str 4)) then
    poke (poke (poke str 0 39) 5 39) 6 0
  else
    sprintf_d str (toInt32 error)

/-- `CheckError` (lines 29-46): nothing happens when `error` is `noErr`;
otherwise the code is rendered into the local array `str` of 20 bytes, the
message goes to standard error and the process exits with code 1. -/
def CheckError (str : Mem) (error : Int) (operation : List Nat) : Run Unit :=
  if error = 0 then pure ()
  else do
    fprintf_stderr (ascii "Error: " ++ cstr operation ++ ascii " ("
      ++ readCStr (CheckError.format str error) 20 0 ++ ascii ")\n")
    exit 1

/-- The rendering of a status code in the words of the specification: the
four bytes of the code in big-endian order between single quotes when all
four are printable characters, and the signed decimal integer otherwise. -/
def CheckError.renderedCode (error : Int) : List Nat :=
  if ∀ b ∈ bigEndianBytes (toUInt32 error), 32 ≤ b ∧ b ≤ 126 then
    [39] ++ bigEndianBytes (toUInt32 error) ++ [39]
  else itoa error

/-- `getDeviceName` (lines 50-61): the value is the content of the caller's
buffer `buf` once the hardware layer has written the name into it; a failing
query is fatal. -/
def getDeviceName (p : Platform) (id : Nat) : Run (List Nat) :=
  let theScope := kAudioDevicePropertyScopeOutput
  let theAddress : AudioObjectPropertyAddress := ⟨kAudioDevicePropertyDeviceName, theScope, 0⟩
  do
    let status ← call (.AudioObjectGetPropertyData id theAddress) (p.deviceNameStatus id)
    CheckError p.stack status (ascii "AudioObjectGetPropertyData failed")
    pure (p.deviceName id)

/-- The scope `numChannels` queries (line 123): `theScope`. -/
def numChannels.scope (inputChannels : Bool) : AudioObjectPropertyScope :=
  if inputChannels then kAudioDevicePropertyScopeInput else kAudioDevicePropertyScopeOutput

/-- One round of the loop of `numChannels` (line 136): `result += mNumberChannels`
with `result` an `int` and the addend a `UInt32`. -/
def numChannels.add (result : Int) (mNumberChannels : Nat) : Int :=
  toInt32 ((toUInt32 result + mNumberChannels : Nat) : Int)

/-- `numChannels` (lines 118-141). -/
def numChannels (p : Platform) (deviceID : Nat) (inputChannels : Bool) : Run Int :=
  let theScope := numChannels.scope inputChannels
  let theAddress : AudioObjectPropertyAddress :=
    ⟨kAudioDevicePropertyStreamConfiguration, theScope, 0⟩
  do
    let err ← call (.AudioObjectGetPropertyDataSize deviceID theAddress)
      (p.streamConfiguration deviceID theScope).sizeStatus
    if err ≠ 0 then pure 0
    else do
      let err ← call (.AudioObjectGetPropertyData deviceID theAddress)
        (p.streamConfiguration deviceID theScope).dataStatus
      if err = 0 then
        pure ((p.streamConfiguration deviceID theScope).mBuffers.foldl numChannels.add 0)
      else pure 0

/-- The loop of `getOutputDevice` (lines 156-165) over the identifiers not yet
visited; `deviceID` is still 0 when no device is taken. -/
def getOutputDevice.loop (p : Platform) (outputName : List Nat) : List Nat → Run Nat
  | [] => pure 0
  | testId :: devids => do
    let name ← getDeviceName p testId
    let n ← numChannels p testId false
    if n ≠ 0 ∧ strcmp outputName name = 0 then pure testId
    else getOutputDevice.loop p outputName devids

/-- `getOutputDevice` (lines 144-169).  The size query reports
`sizeof(AudioDeviceID)` bytes for each device of the list the data query fills in. -/
def getOutputDevice (p : Platform) (outputName : List Nat) : Run Nat :=
  let theAddress : AudioObjectPropertyAddress :=
    ⟨kAudioHardwarePropertyDevices, kAudioObjectPropertyScopeGlobal,
      kAudioObjectPropertyElementMaster⟩
  do
    let status ← call (.AudioObjectGetPropertyDataSize kAudioObjectSystemObject theAddress)
      p.devicesSizeStatus
    CheckError p.stack status (ascii "AudioObjectGetPropertyDataSize failed")
    let propsize := sizeofAudioDeviceID * p.devices.length
    let nDevices := propsize / sizeofAudioDeviceID
    let status ← call (.AudioObjectGetPropertyData kAudioObjectSystemObject theAddress)
      p.devicesDataStatus
    CheckError p.stack status (ascii "AudioObjectGetPropertyData failed")
    getOutputDevice.loop p outputName (p.devices.take nDevices)

/-- `SetOutput` (lines 276-294). -/
def SetOutput (p : Platform) (player : MyAUGraphPlayer) (outputNode deviceId : Nat) :
    Run Unit := do
  let r ← call (.AUGraphNodeInfo player.graph outputNode) (p.nodeInfo player.graph outputNode)
  CheckError p.stack r.1 (ascii "AUGraphNodeInfo failed")
  let outputUnit := r.2
  let status ← call
    (.AudioUnitSetProperty outputUnit kAudioOutputUnitProperty_CurrentDevice
      kAudioUnitScope_Global 0 (.deviceID deviceId))
    (p.setProperty outputUnit kAudioOutputUnitProperty_CurrentDevice (.deviceID deviceId))
  CheckError p.stack status (ascii "AudioUnitSetProperty failed")

/-- `CreateMyAUGraph` (lines 63-116); returns the player with `graph` and
`fileAU` filled in. -/
def CreateMyAUGraph (p : Platform) (player : MyAUGraphPlayer) (deviceId : Nat) :
    Run MyAUGraphPlayer := do
  let r ← call .NewAUGraph p.newAUGraph
  CheckError p.stack r.1 (ascii "NewAUGraph failed")
  let player := { player with graph := r.2 }
  let outputcd : AudioComponentDescription :=
    ⟨kAudioUnitType_Output, kAudioUnitSubType_DefaultOutput, kAudioUnitManufacturer_Apple⟩
  let r ← call (.AUGraphAddNode player.graph outputcd) (p.addNode player.graph outputcd)
  CheckError p.stack r.1 (ascii "AUGraphAddNode[kAudioUnitSubType_DefaultOutput] failed")
  let outputNode := r.2
  let fileplayercd : AudioComponentDescription :=
    ⟨kAudioUnitType_Generator, kAudioUnitSubType_AudioFilePlayer, kAudioUnitManufacturer_Apple⟩
  let r ← call (.AUGraphAddNode player.graph fileplayercd) (p.addNode player.graph fileplayercd)
  CheckError p.stack r.1 (ascii "AUGraphAddNode[kAudioUnitSubType_AudioFilePlayer] failed")
  let fileNode := r.2
  let status ← call (.AUGraphOpen player.graph) (p.graphOpen player.graph)
  CheckError p.stack status (ascii "AUGraphOpen failed")
  let r ← call (.AUGraphNodeInfo player.graph fileNode) (p.nodeInfo player.graph fileNode)
  CheckError p.stack r.1 (ascii "AUGraphNodeInfo failed")
  let player := { player with fileAU := r.2 }
  let status ← call (.AUGraphConnectNodeInput player.graph fileNode 0 outputNode 0)
    (p.connectNodeInput player.graph fileNode 0 outputNode 0)
  CheckError p.stack status (ascii "AUGraphConnectNodeInput")
  if deviceId > 0 then do
    let name ← getDeviceName p deviceId
    printf (ascii "Using output device '" ++ cstr name ++ ascii "' (id "
      ++ itoa (toInt32 deviceId) ++ ascii ")\n")
    SetOutput p player outputNode deviceId
  else
    printf (ascii "Using default output device.\n")
  let status ← call (.AUGraphInitialize player.graph) (p.graphInitialize player.graph)
  CheckError p.stack status (ascii "AUGraphInitialize failed")
  pure player

/-- The region `rgn` built by `PrepareFileAU` (lines 186-195) for a file of
`nPackets` packets.  The product is computed in `UInt64` and then cast to
the `UInt32` field `mFramesToPlay`. -/
def PrepareFileAU.rgn (player : MyAUGraphPlayer) (nPackets : Nat) : ScheduledAudioFileRegion :=
  { mTimeStamp := { mSampleTime := 0, mFlags := kAudioTimeStampSampleTimeValid }
    mCompletionProc := 0
    mCompletionProcUserData := 0
    mAudioFile := player.inputFile
    mLoopCount := 0
    mStartFrame := 0
    mFramesToPlay := toUInt32 (toUInt64 (nPackets * player.inputFormat.mFramesPerPacket)) }

/-- `PrepareFileAU` (lines 171-218).  The returned `double` is the quotient of
the `UInt64` product, converted to `double`, by the sample rate. -/
def PrepareFileAU (p : Platform) (player : MyAUGraphPlayer) : Run Float64 := do
  let status ← call
    (.AudioUnitSetProperty player.fileAU kAudioUnitProperty_ScheduledFileIDs
      kAudioUnitScope_Global 0 (.fileID player.inputFile))
    (p.setProperty player.fileAU kAudioUnitProperty_ScheduledFileIDs (.fileID player.inputFile))
  CheckError p.stack status
    (ascii "AudioUnitSetProperty[kAudioUnitProperty_ScheduledFileIDs] failed")
  let r ← call (.AudioFileGetProperty player.inputFile kAudioFilePropertyAudioDataPacketCount)
    (p.filePacketCount player.inputFile)
  CheckError p.stack r.1
    (ascii "AudioFileGetProperty[kAudioFilePropertyAudioDataPacketCount] failed")
  let nPackets := r.2
  let rgn := PrepareFileAU.rgn player nPackets
  let status ← call
    (.AudioUnitSetProperty player.fileAU kAudioUnitProperty_ScheduledFileRegion
      kAudioUnitScope_Global 0 (.region rgn))
    (p.setProperty player.fileAU kAudioUnitProperty_ScheduledFileRegion (.region rgn))
  CheckError p.stack status
    (ascii "AudioUnitSetProperty[kAudioUnitProperty_ScheduledFileRegion] failed")
  let defaultVal := 0
  let status ← call
    (.AudioUnitSetProperty player.fileAU kAudioUnitProperty_ScheduledFilePrime
      kAudioUnitScope_Global 0 (.uint32 defaultVal))
    (p.setProperty player.fileAU kAudioUnitProperty_ScheduledFilePrime (.uint32 defaultVal))
  CheckError p.stack status
    (ascii "AudioUnitSetProperty[kAudioUnitProperty_ScheduledFilePrime] failed")
  let startTime : AudioTimeStamp :=
    { mSampleTime := -1, mFlags := kAudioTimeStampSampleTimeValid }
  let status ← call
    (.AudioUnitSetProperty player.fileAU kAudioUnitProperty_ScheduleStartTimeStamp
      kAudioUnitScope_Global 0 (.timeStamp startTime))
    (p.setProperty player.fileAU kAudioUnitProperty_ScheduleStartTimeStamp
      (.timeStamp startTime))
  CheckError p.stack status
    (ascii "AudioUnitSetProperty[kAudioUnitProperty_ScheduleStartTimeStamp]")
  pure (Float64.div (Float64.ofUInt64 (toUInt64 (nPackets * player.inputFormat.mFramesPerPacket)))
    player.inputFormat.mSampleRate)

/-- The device identifier `main` resolves (lines 224 and 233-235). -/
def main.deviceId (p : Platform) (argv : List (List Nat)) : Run Nat :=
  let argc := argv.length
  if argc > 2 then getOutputDevice p (argv.getD 2 []) else pure 0

/-- The rest of `main` once the device is resolved (lines 237-273). -/
def main.play (p : Platform) (argv : List (List Nat)) (deviceId : Nat) : Run Int := do
  let file ← call (.CFStringCreateWithCString (argv.getD 1 [])) (cstr (argv.getD 1 []))
  let inputFileURL ← call (.CFURLCreateWithFileSystemPath file) file
  let player : MyAUGraphPlayer := ⟨⟨.finite false 0 0, 0⟩, 0, 0, 0⟩
  let r ← call (.AudioFileOpenURL inputFileURL kAudioFileReadPermission)
    (p.fileOpenURL inputFileURL)
  CheckError p.stack r.1 (ascii "AudioFileOpenURL failed")
  let player := { player with inputFile := r.2 }
  call (.CFRelease inputFileURL) ()
  let r ← call (.AudioFileGetProperty player.inputFile kAudioFilePropertyDataFormat)
    (p.fileDataFormat player.inputFile)
  CheckError p.stack r.1 (ascii "couldn't get file's data format")
  let player := { player with inputFormat := r.2 }
  let player ← CreateMyAUGraph p player deviceId
  let fileDuration ← PrepareFileAU p player
  let status ← call (.AUGraphStart player.graph) (p.graphStart player.graph)
  CheckError p.stack status (ascii "AUGraphStart failed")
  call (.usleep (Float64.toUseconds
    (Float64.mul (Float64.mul fileDuration (.finite false 1000 0)) (.finite false 1000 0)))) ()
  call (.AUGraphStop player.graph) ()
  call ( Call.AUGraphUninitialize player.graph) ()
  call (.AUGraphClose player.graph) ()
  call (.AudioFileClose player.inputFile) ()
  pure 0

/-- `main` (lines 221-274): `argv` holds `argc` strings; the value is the
one `main` returns. -/
def main (p : Platform) (argv : List (List Nat)) : Run Int :=
  let argc := argv.length
  if argc < 2 then do
    printf (ascii "playto - audio player that can output to a certain device.\n")
    printf (ascii "Usage: playto filename [output device name].\n")
    printf (ascii "Ex: playto /path/to/foo.mp3 My\\ Nice\\ Sound\\ Card\n")
    pure (-1)
  else do
    let deviceId ← main.deviceId p argv
    main.play p argv deviceId

/-- The exit status a POSIX parent sees for the value `main` returns or hands
to `exit`: its low eight bits. -/
def exitStatus (code : Int) : Nat := (code % 256).toNat

/-- The bytes a run wrote to standard output. -/
def Run.stdout {α : Type} (r : Run α) : List Nat :=
  (r.events.map fun e => match e with | .stdout b => b | _ => []).flatten

/-- The bytes a run wrote to standard error. -/
def Run.stderr {α : Type} (r : Run α) : List Nat :=
  (r.events.map fun e => match e with | .stderr b => b | _ => []).flatten

/-- The framework calls of a run, in order. -/
def Run.calls {α : Type} (r : Run α) : List Call :=
  r.events.filterMap fun e => match e with | .call c => some c | _ => none

/-! ## Sample platforms -/

/-- A stream configuration answered without error. -/
def StreamConfiguration.ok (mBuffers : List Nat) : StreamConfiguration := ⟨0, 0, mBuffers⟩

/-- A machine on which every framework call succeeds, with three devices:
41 "Built-in Microphone" (no output channel), 42 "Built-in Output" (one
stereo output buffer) and 43 "Built-in Output" again (two mono buffers).
The file it opens has 1000 packets of 1152 frames at 44100 Hz. -/
def studio : Platform where
  stack := fun _ => 170
  devicesSizeStatus := 0
  devicesDataStatus := 0
  devices := [41, 42, 43]
  deviceNameStatus := fun _ => 0
  deviceName := fun id =>
    if id = 41 then ascii "Built-in Microphone" ++ [0, 7, 7] else ascii "Built-in Output" ++ [0]
  streamConfiguration := fun id scope =>
    if scope = kAudioDevicePropertyScopeOutput then
      (if id = 41 then .ok [] else if id = 42 then .ok [2] else .ok [1, 1])
    else .ok [2]
  newAUGraph := (0, 7)
  addNode := fun _ desc => (0, if desc.componentType = kAudioUnitType_Output then 1 else 2)
  graphOpen := fun _ => 0
  nodeInfo := fun _ node => (0, 100 + node)
  connectNodeInput := fun _ _ _ _ _ => 0
  graphInitialize := fun _ => 0
  graphStart := fun _ => 0
  setProperty := fun _ _ _ => 0
  fileOpenURL := fun _ => (0, 5)
  fileDataFormat := fun _ => (0, ⟨.finite false 44100 0, 1152⟩)
  filePacketCount := fun _ => (0, 1000)

/-- The sample machine with three devices that all answer to the name
"USB DAC": device 1 reports buffers of 4294967295 and 1 channels, device 2 one
buffer of 2147483648 channels, device 3 one stereo buffer. -/
def wrapped : Platform :=
  { studio with
    devices := [1, 2, 3]
    deviceName := fun _ => ascii "USB DAC" ++ [0]
    streamConfiguration := fun id _ =>
      if id = 1 then .ok [4294967295, 1] else if id = 2 then .ok [2147483648] else .ok [2] }

/-- The sample machine when the stream configuration of every device cannot
be read: the data query fails with the status 'stop'. -/
def mute : Platform :=
  { studio with streamConfiguration := fun _ _ => ⟨0, 1937010544, [2]⟩ }

/-- The sample machine opening a long recording: 3728271 packets of 1152
frames, a little over 27 hours at 44100 Hz. -/
def marathon : Platform :=
  { studio with filePacketCount := fun _ => (0, 3728271) }

/-- The player as `main` hands it to `PrepareFileAU` on the sample machines. -/
def marathonPlayer : MyAUGraphPlayer := ⟨⟨.finite false 44100 0, 1152⟩, 5, 7, 102⟩

/-- The output channel count of a device in the words of the specification:
the sum of the channel counts of every buffer in its output stream
configuration, a query failure being treated as zero channels. -/
def outputChannelCount (p : Platform) (id : Nat) : Nat :=
  if (p.streamConfiguration id kAudioDevicePropertyScopeOutput).sizeStatus = 0 ∧
      (p.streamConfiguration id kAudioDevicePropertyScopeOutput).dataStatus = 0 then
    (p.streamConfiguration id kAudioDevicePropertyScopeOutput).mBuffers.sum
  else 0

/-- The framework calls of a graph construction that runs to its end, in the
order of the source: used to state in which order `CreateMyAUGraph` calls. -/
def CreateMyAUGraph.steps (p : Platform) (deviceId : Nat) : List Call :=
  let graph := p.newAUGraph.2
  let outputcd : AudioComponentDescription :=
    ⟨kAudioUnitType_Output, kAudioUnitSubType_DefaultOutput, kAudioUnitManufacturer_Apple⟩
  let fileplayercd : AudioComponentDescription :=
    ⟨kAudioUnitType_Generator, kAudioUnitSubType_AudioFilePlayer, kAudioUnitManufacturer_Apple⟩
  let outputNode := (p.addNode graph outputcd).2
  let fileNode := (p.addNode graph fileplayercd).2
  [.NewAUGraph, .AUGraphAddNode graph outputcd, .AUGraphAddNode graph fileplayercd,
    .AUGraphOpen graph, .AUGraphNodeInfo graph fileNode,
    .AUGraphConnectNodeInput graph fileNode 0 outputNode 0]
  ++ (if deviceId > 0 then
        [.AudioObjectGetPropertyData deviceId
            ⟨kAudioDevicePropertyDeviceName, kAudioDevicePropertyScopeOutput, 0⟩,
          .AUGraphNodeInfo graph outputNode,
          .AudioUnitSetProperty (p.nodeInfo graph outputNode).2
            kAudioOutputUnitProperty_CurrentDevice kAudioUnitScope_Global 0 (.deviceID deviceId)]
      else [])
  ++ [.AUGraphInitialize graph]

/-- Every framework call of a graph construction is answered with `noErr`. -/
def Platform.graphCallsSucceed (p : Platform) : Prop :=
  p.newAUGraph.1 = 0 ∧ (∀ g desc, (p.addNode g desc).1 = 0) ∧ (∀ g, p.graphOpen g = 0) ∧
  (∀ g node, (p.nodeInfo g node).1 = 0) ∧ (∀ g a b c d, p.connectNodeInput g a b c d = 0) ∧
  (∀ id, p.deviceNameStatus id = 0) ∧ (∀ u prop v, p.setProperty u prop v = 0) ∧
  (∀ g, p.graphInitialize g = 0)

/-! ## Sequencing lemmas -/

theorem Run.pure_eq {α : Type} (a : α) : (pure a : Run α) = ⟨[], .ret a⟩ := rfl

theorem Run.bind_eq {α β : Type} (r : Run α) (f : α → Run β) : (r >>= f) = Run.bind r f := rfl

theorem Run.bind_ret {α β : Type} (es : List Event) (a : α) (f : α → Run β) :
    Run.bind ⟨es, .ret a⟩ f = ⟨es ++ (f a).events, (f a).outcome⟩ := rfl

theorem Run.bind_exit {α β : Type} (es : List Event) (code : Int) (f : α → Run β) :
    Run.bind ⟨es, .exit code⟩ f = ⟨es, .exit code⟩ := rfl

theorem CheckError_noErr (str : Mem) (operation : List Nat) :
    CheckError str 0 operation = ⟨[], .ret ()⟩ := by
  simp [CheckError, Run.pure_eq]

theorem CheckError_of_ne (str : Mem) (error : Int) (operation : List Nat) (h : error ≠ 0) :
    ∃ msg, CheckError str error operation = ⟨[.stderr msg], .exit 1⟩ := by
  simp only [CheckError, h, if_false, Run.bind_eq, fprintf_stderr, Playto.exit, Run.bind_ret,
    List.append_nil]
  exact ⟨_, rfl⟩

/-! ## Integers and strings -/

theorem toInt32_of_range (x : Int) (hlo : -2147483648 ≤ x) (hhi : x < 2147483648) :
    toInt32 x = x := by
  unfold toInt32
  split <;> omega

theorem isprint_toChar (b : Nat) (h : b < 256) :
    isprint (toChar b) = true ↔ 32 ≤ b ∧ b ≤ 126 := by
  unfold isprint toChar
  have hb : b % 256 = b := Nat.mod_eq_of_lt h
  rw [hb]
  split <;> simp
  all_goals omega

theorem pokes_below (s : List Nat) : ∀ (mem : Mem) (i j : Nat), j < i → pokes mem i s j = mem j := by
  induction s with
  | nil => intro mem i j _; rfl
  | cons b bs ih =>
    intro mem i j h
    rw [pokes, ih _ _ _ (by omega)]
    simp [poke]; omega

theorem readCStr_pokes (s : List Nat) :
    ∀ (mem : Mem) (i size : Nat), (∀ b ∈ s, b ≠ 0) → s.length < size →
      readCStr (pokes mem i (s ++ [0])) size i = s := by
  induction s with
  | nil =>
    intro mem i size _ hlen
    obtain ⟨n, rfl⟩ : ∃ n, size = n + 1 := ⟨size - 1, by simp at hlen; omega⟩
    simp [readCStr, pokes, poke]
  | cons b bs ih =>
    intro mem i size hnz hlen
    obtain ⟨n, rfl⟩ : ∃ n, size = n + 1 := ⟨size - 1, by simp at hlen; omega⟩
    have hb : b ≠ 0 := hnz b (by simp)
    have hhead : pokes (poke mem i b) (i + 1) (bs ++ [0]) i = b := by
      rw [pokes_below _ _ _ _ (by omega)]; simp [poke]
    have hlen2 : bs.length < n := by simp at hlen; omega
    have htail := ih (poke mem i b) (i + 1) n (fun x hx => hnz x (by simp [hx])) hlen2
    show readCStr (pokes (poke mem i b) (i + 1) (bs ++ [0])) (n + 1) i = b :: bs
    rw [readCStr, hhead, if_neg hb, htail]

theorem utoaAux_ne_zero : ∀ (fuel n : Nat) (acc : List Nat), (∀ b ∈ acc, b ≠ 0) →
    ∀ b ∈ utoaAux fuel n acc, b ≠ 0 := by
  intro fuel
  induction fuel with
  | zero => intro n acc h; simpa [utoaAux] using h
  | succ k ih =>
    intro n acc h
    unfold utoaAux
    split
    · intro b hb
      rcases List.mem_cons.1 hb with rfl | hb
      · omega
      · exact h b hb
    · apply ih
      intro b hb
      rcases List.mem_cons.1 hb with rfl | hb
      · omega
      · exact h b hb

theorem utoaAux_length : ∀ (fuel n k : Nat) (acc : List Nat), n < 10 ^ (k + 1) →
    (utoaAux fuel n acc).length ≤ acc.length + (k + 1) := by
  intro fuel
  induction fuel with
  | zero => intro n k acc _; simp [utoaAux]
  | succ f ih =>
    intro n k acc h
    unfold utoaAux
    split
    · simp
    · rename_i h10
      cases k with
      | zero => simp at h; omega
      | succ k =>
        have hdiv : n / 10 < 10 ^ (k + 1) := by
          rw [Nat.div_lt_iff_lt_mul (by norm_num)]
          calc n < 10 ^ (k + 1 + 1) := h
            _ = 10 ^ (k + 1) * 10 := by ring
        have := ih (n / 10) k ((48 + n % 10) :: acc) hdiv
        simp at this ⊢
        omega

theorem itoa_ne_zero (v : Int) : ∀ b ∈ itoa v, b ≠ 0 := by
  unfold itoa
  split
  · intro b hb
    rcases List.mem_cons.1 hb with rfl | hb
    · decide
    · exact utoaAux_ne_zero _ _ [] (by simp) b hb
  · exact utoaAux_ne_zero _ _ [] (by simp)

theorem itoa_length (v : Int) (hlo : -2147483648 ≤ v) (hhi : v < 2147483648) :
    (itoa v).length ≤ 11 := by
  have hn : v.natAbs < 10 ^ (9 + 1) := by norm_num; omega
  have := utoaAux_length (v.natAbs + 1) v.natAbs 9 [] hn
  unfold itoa
  split <;> simp at this ⊢ <;> omega

theorem CheckError.format_eq (str : Mem) (error : Int)
    (hlo : -2147483648 ≤ error) (hhi : error < 2147483648) :
    readCStr (CheckError.format str error) 20 0 = CheckError.renderedCode error := by
  have h1 : pokes str 1 (bigEndianBytes (toUInt32 error)) 1 = toUInt32 error / 16777216 % 256 := by
    simp [bigEndianBytes, pokes, poke]
  have h2 : pokes str 1 (bigEndianBytes (toUInt32 error)) 2 = toUInt32 error / 65536 % 256 := by
    simp [bigEndianBytes, pokes, poke]
  have h3 : pokes str 1 (bigEndianBytes (toUInt32 error)) 3 = toUInt32 error / 256 % 256 := by
    simp [bigEndianBytes, pokes, poke]
  have h4 : pokes str 1 (bigEndianBytes (toUInt32 error)) 4 = toUInt32 error % 256 := by
    simp [bigEndianBytes, pokes, poke]
  have p1 := isprint_toChar (toUInt32 error / 16777216 % 256) (Nat.mod_lt _ (by norm_num))
  have p2 := isprint_toChar (toUInt32 error / 65536 % 256) (Nat.mod_lt _ (by norm_num))
  have p3 := isprint_toChar (toUInt32 error / 256 % 256) (Nat.mod_lt _ (by norm_num))
  have p4 := isprint_toChar (toUInt32 error % 256) (Nat.mod_lt _ (by norm_num))
  unfold CheckError.format CheckError.renderedCode
  simp only [h1, h2, h3, h4, Bool.and_eq_true, p1, p2, p3, p4]
  by_cases hp : (((32 ≤ toUInt32 error / 16777216 % 256 ∧ toUInt32 error / 16777216 % 256 ≤ 126) ∧
      (32 ≤ toUInt32 error / 65536 % 256 ∧ toUInt32 error / 65536 % 256 ≤ 126)) ∧
      (32 ≤ toUInt32 error / 256 % 256 ∧ toUInt32 error / 256 % 256 ≤ 126)) ∧
      (32 ≤ toUInt32 error % 256 ∧ toUInt32 error % 256 ≤ 126)
  · have hspec : ∀ b ∈ bigEndianBytes (toUInt32 error), 32 ≤ b ∧ b ≤ 126 := by
      intro b hb
      simp only [bigEndianBytes, List.mem_cons, List.mem_singleton, List.not_mem_nil,
        or_false] at hb
      rcases hb with rfl | rfl | rfl | rfl
      · exact hp.1.1.1
      · exact hp.1.1.2
      · exact hp.1.2
      · exact hp.2
    rw [if_pos hp, if_pos hspec]
    have n1 : toUInt32 error / 16777216 % 256 ≠ 0 := by have := hp.1.1.1.1; omega
    have n2 : toUInt32 error / 65536 % 256 ≠ 0 := by have := hp.1.1.2.1; omega
    have n3 : toUInt32 error / 256 % 256 ≠ 0 := by have := hp.1.2.1; omega
    have n4 : toUInt32 error % 256 ≠ 0 := by have := hp.2.1; omega
    simp [readCStr, poke, pokes, bigEndianBytes, n1, n2, n3, n4]
  · have hspec : ¬ ∀ b ∈ bigEndianBytes (toUInt32 error), 32 ≤ b ∧ b ≤ 126 := by
      intro h
      apply hp
      refine ⟨⟨⟨h _ ?_, h _ ?_⟩, h _ ?_⟩, h _ ?_⟩ <;> simp [bigEndianBytes]
    rw [if_neg hp, if_neg hspec, toInt32_of_range error hlo hhi]
    exact readCStr_pokes (itoa error) _ 0 20 (itoa_ne_zero error)
      (by have := itoa_length error hlo hhi; omega)

theorem strcmp_eq_zero_iff : ∀ (a b : List Nat), strcmp a b = 0 ↔ cstr a = cstr b
  | [], [] => by simp [strcmp, cstr]
  | [], b :: t => by
    by_cases hb : b = 0
    · simp [strcmp, cstr, hb]
    · simp [strcmp, cstr, hb]
  | a :: s, [] => by
    by_cases ha : a = 0
    · simp [strcmp, cstr, ha]
    · simp [strcmp, cstr, ha]
  | a :: s, b :: t => by
    have ih := strcmp_eq_zero_iff s t
    by_cases hab : a = b
    · subst hab
      by_cases ha : a = 0
      · simp [strcmp, cstr, ha]
      · simp only [cstr] at ih
        simp [strcmp, cstr, ha, ih]
    · have hne : (a : Int) - (b : Int) ≠ 0 := by omega
      by_cases ha : a = 0 <;> by_cases hb : b = 0 <;>
        simp [strcmp, cstr, hab, hne, ha, hb]
      all_goals omega

theorem numChannels.add_toInt32 (x : Int) (n : Nat) :
    numChannels.add (toInt32 x) n = toInt32 (x + n) := by
  unfold numChannels.add toInt32 toUInt32
  split <;> split <;> split <;> omega

theorem numChannels.foldl_add (l : List Nat) : ∀ (x : Int),
    l.foldl numChannels.add (toInt32 x) = toInt32 (x + (l.sum : Nat)) := by
  induction l with
  | nil => intro x; simp
  | cons n t ih =>
    intro x
    rw [List.foldl_cons, numChannels.add_toInt32, ih]
    congr 1
    simp only [List.sum_cons]
    push_cast
    ring

/-- The loop of `numChannels` computes the sum of the channel counts in
32-bit arithmetic: the result is the sum wrapped into the range of `int`. -/
theorem numChannels.foldl_eq (l : List Nat) :
    l.foldl numChannels.add 0 = toInt32 (l.sum : Nat) := by
  have h := numChannels.foldl_add l 0
  have h0 : toInt32 0 = 0 := by decide
  rw [h0] at h
  simpa using h

/-! ## Device queries -/

theorem getDeviceName_ok (p : Platform) (id : Nat) (h : p.deviceNameStatus id = 0) :
    getDeviceName p id =
      ⟨[.call (.AudioObjectGetPropertyData id
          ⟨kAudioDevicePropertyDeviceName, kAudioDevicePropertyScopeOutput, 0⟩)],
        .ret (p.deviceName id)⟩ := by
  simp [getDeviceName, h, CheckError_noErr, call, Run.bind_eq, Run.bind, Run.pure_eq]

theorem getDeviceName_fails (p : Platform) (id : Nat) (h : p.deviceNameStatus id ≠ 0) :
    (getDeviceName p id).outcome = .exit 1 := by
  obtain ⟨msg, hmsg⟩ := CheckError_of_ne p.stack _ (ascii "AudioObjectGetPropertyData failed") h
  simp [getDeviceName, hmsg, call, Run.bind_eq, Run.bind]

theorem numChannels_outcome (p : Platform) (deviceID : Nat) (inputChannels : Bool) :
    (numChannels p deviceID inputChannels).outcome =
      .ret (if (p.streamConfiguration deviceID (numChannels.scope inputChannels)).sizeStatus = 0 ∧
              (p.streamConfiguration deviceID (numChannels.scope inputChannels)).dataStatus = 0
            then ((p.streamConfiguration deviceID (numChannels.scope inputChannels)).mBuffers.foldl
              numChannels.add 0)
            else 0) := by
  unfold numChannels
  by_cases h1 : (p.streamConfiguration deviceID (numChannels.scope inputChannels)).sizeStatus = 0
  · by_cases h2 :
        (p.streamConfiguration deviceID (numChannels.scope inputChannels)).dataStatus = 0
    · simp [h1, h2, call, Run.bind_eq, Run.bind, Run.pure_eq]
    · simp [h1, h2, call, Run.bind_eq, Run.bind, Run.pure_eq]
  · simp [h1, call, Run.bind_eq, Run.bind, Run.pure_eq]

theorem getOutputDevice.loop_cons (p : Platform) (outputName : List Nat) (testId : Nat)
    (devids : List Nat) (n : Int) (hname : p.deviceNameStatus testId = 0)
    (hn : (numChannels p testId false).outcome = .ret n) :
    (getOutputDevice.loop p outputName (testId :: devids)).outcome =
      if n ≠ 0 ∧ strcmp outputName (p.deviceName testId) = 0 then .ret testId
      else (getOutputDevice.loop p outputName devids).outcome := by
  rw [getOutputDevice.loop, getDeviceName_ok p testId hname]
  rcases hnc : numChannels p testId false with ⟨es, oc⟩
  rw [hnc] at hn
  simp only at hn
  subst hn
  by_cases hc : n ≠ 0 ∧ strcmp outputName (p.deviceName testId) = 0
  · simp [hc, Run.bind_eq, Run.bind, Run.pure_eq]
  · simp [hc, Run.bind_eq, Run.bind, Run.pure_eq]

theorem getOutputDevice.loop_cons_fails (p : Platform) (outputName : List Nat) (testId : Nat)
    (devids : List Nat) (hname : p.deviceNameStatus testId ≠ 0) :
    (getOutputDevice.loop p outputName (testId :: devids)).outcome = .exit 1 := by
  have h := getDeviceName_fails p testId hname
  rcases hg : getDeviceName p testId with ⟨es, oc⟩
  rw [hg] at h
  simp only at h
  subst h
  simp [getOutputDevice.loop, hg, Run.bind_eq, Run.bind]

theorem getOutputDevice_outcome (p : Platform) (outputName : List Nat)
    (hsize : p.devicesSizeStatus = 0) (hdata : p.devicesDataStatus = 0) :
    (getOutputDevice p outputName).outcome =
      (getOutputDevice.loop p outputName p.devices).outcome := by
  have htake : List.take (sizeofAudioDeviceID * p.devices.length / sizeofAudioDeviceID) p.devices
      = p.devices := by
    simp [sizeofAudioDeviceID]
  simp [getOutputDevice, hsize, hdata, CheckError_noErr, call, Run.bind_eq, Run.bind, htake]

theorem numChannels_ne_zero_iff (p : Platform) (id : Nat) (n : Int)
    (hn : (numChannels p id false).outcome = .ret n) :
    (numChannels p id false).outcome ≠ .ret 0 ↔ n ≠ 0 := by
  rw [hn]
  constructor
  · intro h h0; exact h (by rw [h0])
  · intro h h0; exact h (by injection h0)

theorem getOutputDevice.loop_skip (p : Platform) (outputName : List Nat) (testId : Nat)
    (devids : List Nat) (hname : p.deviceNameStatus testId = 0)
    (hq : ¬ ((numChannels p testId false).outcome ≠ .ret 0 ∧
      cstr (p.deviceName testId) = cstr outputName)) :
    (getOutputDevice.loop p outputName (testId :: devids)).outcome =
      (getOutputDevice.loop p outputName devids).outcome := by
  have hn := numChannels_outcome p testId false
  rw [getOutputDevice.loop_cons p outputName testId devids _ hname hn, if_neg]
  rw [strcmp_eq_zero_iff, ← numChannels_ne_zero_iff p testId _ hn]
  intro h
  exact hq ⟨h.1, h.2.symm⟩

theorem getOutputDevice.loop_take (p : Platform) (outputName : List Nat) (testId : Nat)
    (devids : List Nat) (hname : p.deviceNameStatus testId = 0)
    (hcount : (numChannels p testId false).outcome ≠ .ret 0)
    (hmatch : cstr (p.deviceName testId) = cstr outputName) :
    (getOutputDevice.loop p outputName (testId :: devids)).outcome = .ret testId := by
  have hn := numChannels_outcome p testId false
  rw [getOutputDevice.loop_cons p outputName testId devids _ hname hn, if_pos]
  rw [strcmp_eq_zero_iff, ← numChannels_ne_zero_iff p testId _ hn]
  exact ⟨hcount, hmatch.symm⟩

theorem getOutputDevice.loop_append_skip (p : Platform) (outputName : List Nat)
    (devids : List Nat) : ∀ (pre : List Nat),
    (∀ x ∈ pre, p.deviceNameStatus x = 0) →
    (∀ x ∈ pre, ¬ ((numChannels p x false).outcome ≠ .ret 0 ∧
      cstr (p.deviceName x) = cstr outputName)) →
    (getOutputDevice.loop p outputName (pre ++ devids)).outcome =
      (getOutputDevice.loop p outputName devids).outcome := by
  intro pre
  induction pre with
  | nil => intro _ _; rfl
  | cons d t ih =>
    intro hnames hq
    rw [List.cons_append, getOutputDevice.loop_skip p outputName d _ (hnames d (by simp))
      (hq d (by simp))]
    exact ih (fun x hx => hnames x (by simp [hx])) (fun x hx => hq x (by simp [hx]))

theorem getOutputDevice.loop_append_congr (p : Platform) (outputName : List Nat)
    (a b : List Nat)
    (h : (getOutputDevice.loop p outputName a).outcome =
      (getOutputDevice.loop p outputName b).outcome) : ∀ (pre : List Nat),
    (getOutputDevice.loop p outputName (pre ++ a)).outcome =
      (getOutputDevice.loop p outputName (pre ++ b)).outcome := by
  intro pre
  induction pre with
  | nil => exact h
  | cons d t ih =>
    by_cases hname : p.deviceNameStatus d = 0
    · have hn := numChannels_outcome p d false
      rw [List.cons_append, List.cons_append,
        getOutputDevice.loop_cons p outputName d _ _ hname hn,
        getOutputDevice.loop_cons p outputName d _ _ hname hn, ih]
    · rw [List.cons_append, List.cons_append,
        getOutputDevice.loop_cons_fails p outputName d _ hname,
        getOutputDevice.loop_cons_fails p outputName d _ hname]

theorem getOutputDevice.loop_ret (p : Platform) (outputName : List Nat) :
    ∀ (devids : List Nat) (r : Nat),
    (getOutputDevice.loop p outputName devids).outcome = .ret r →
    (r = 0 ∧ ∀ x ∈ devids, ¬ ((numChannels p x false).outcome ≠ .ret 0 ∧
        cstr (p.deviceName x) = cstr outputName)) ∨
    (∃ pre post, devids = pre ++ r :: post ∧
      (numChannels p r false).outcome ≠ .ret 0 ∧ cstr (p.deviceName r) = cstr outputName ∧
      ∀ x ∈ pre, ¬ ((numChannels p x false).outcome ≠ .ret 0 ∧
        cstr (p.deviceName x) = cstr outputName)) := by
  intro devids
  induction devids with
  | nil =>
    intro r h
    left
    refine ⟨?_, by simp⟩
    simp only [getOutputDevice.loop, Run.pure_eq] at h
    injection h with h
    exact h.symm
  | cons d t ih =>
    intro r h
    by_cases hname : p.deviceNameStatus d = 0
    · by_cases hq : (numChannels p d false).outcome ≠ .ret 0 ∧
          cstr (p.deviceName d) = cstr outputName
      · rw [getOutputDevice.loop_take p outputName d t hname hq.1 hq.2] at h
        injection h with h
        subst h
        right
        exact ⟨[], t, rfl, hq.1, hq.2, by simp⟩
      · rw [getOutputDevice.loop_skip p outputName d t hname hq] at h
        rcases ih r h with ⟨h0, hall⟩ | ⟨pre, post, hl, hc, hm, hpre⟩
        · left
          refine ⟨h0, ?_⟩
          intro x hx
          rcases List.mem_cons.1 hx with rfl | hx
          · exact hq
          · exact hall x hx
        · right
          refine ⟨d :: pre, post, by rw [hl]; rfl, hc, hm, ?_⟩
          intro x hx
          rcases List.mem_cons.1 hx with rfl | hx
          · exact hq
          · exact hpre x hx
    · rw [getOutputDevice.loop_cons_fails p outputName d t hname] at h
      exact absurd h (by simp)

/-! ## The error reporter -/

/-- C5: `CheckError` returns normally, with no output and no exit, when the
status is the success value `noErr` = 0; for every other status the process
ends with exit code 1, a non-zero exit status, and control never comes back
to the caller: whatever follows the call is not run. -/
theorem CheckError_noErr_returns_else_exits (str : Mem) (error : Int) (operation : List Nat) :
    (error = 0 → CheckError str error operation = ⟨[], .ret ()⟩) ∧
    (error ≠ 0 →
      (CheckError str error operation).outcome = .exit 1 ∧ exitStatus 1 ≠ 0 ∧
      ∀ (β : Type) (next : Unit → Run β),
        (CheckError str error operation >>= next)
          = ⟨(CheckError str error operation).events, .exit 1⟩) := by
  constructor
  · rintro rfl
    exact CheckError_noErr str operation
  · intro h
    obtain ⟨msg, hmsg⟩ := CheckError_of_ne str error operation h
    refine ⟨by rw [hmsg], by decide, ?_⟩
    intro β next
    rw [hmsg, Run.bind_eq, Run.bind_exit]

/-- Witness for C5: a success status and the status -50 on the sample machine. -/
theorem CheckError_noErr_returns_else_exits_witness :
    CheckError studio.stack 0 (ascii "NewAUGraph failed") = ⟨[], .ret ()⟩ ∧
    (CheckError studio.stack (-50) (ascii "NewAUGraph failed")).outcome = .exit 1 :=
  ⟨(CheckError_noErr_returns_else_exits _ _ _).1 rfl,
   ((CheckError_noErr_returns_else_exits _ _ _).2 (by decide)).1⟩

/-- C8: for a status other than `noErr`, `CheckError` writes exactly one
message, to standard error: "Error: ", the operation label, and between
parentheses the code, rendered as its four big-endian bytes between single
quotes exactly when all four are printable and as its signed decimal value
otherwise, then a newline.  Nothing depends on what the array `str` held. -/
theorem CheckError_message (str : Mem) (error : Int) (operation : List Nat)
    (hne : error ≠ 0) (hlo : -2147483648 ≤ error) (hhi : error < 2147483648) :
    (CheckError str error operation).events =
      [.stderr (ascii "Error: " ++ cstr operation ++ ascii " ("
        ++ CheckError.renderedCode error ++ ascii ")\n")] := by
  simp only [CheckError, hne, if_false, Run.bind_eq, fprintf_stderr, Playto.exit, Run.bind_ret,
    List.append_nil, CheckError.format_eq str error hlo hhi]

/-- Witness for C8: the code 'fmt?' is printed as a tag, the code -50 as a number. -/
theorem CheckError_message_witness :
    (CheckError studio.stack 1718449215 (ascii "AudioFileOpenURL failed")).events =
      [.stderr (ascii "Error: AudioFileOpenURL failed ('fmt?')\n")] ∧
    (CheckError studio.stack (-50) (ascii "AUGraphStart failed")).events =
      [.stderr (ascii "Error: AUGraphStart failed (-50)\n")] :=
  ⟨(CheckError_message studio.stack 1718449215 (ascii "AudioFileOpenURL failed")
      (by decide) (by decide) (by decide)).trans (by decide),
   (CheckError_message studio.stack (-50) (ascii "AUGraphStart failed")
      (by decide) (by decide) (by decide)).trans (by decide)⟩

/-! ## The device resolver -/

/-- When the enumeration succeeds and some device has a non-zero `numChannels`
result and a display name equal, byte for byte, to the requested name,
`getOutputDevice` returns the identifier of the first such device in
enumeration order (the name queries of the devices up to it succeeding). -/
theorem getOutputDevice_first_match (p : Platform) (outputName : List Nat)
    (pre post : List Nat) (d : Nat)
    (hsize : p.devicesSizeStatus = 0) (hdata : p.devicesDataStatus = 0)
    (hdev : p.devices = pre ++ d :: post)
    (hnames : ∀ x ∈ pre, p.deviceNameStatus x = 0) (hname : p.deviceNameStatus d = 0)
    (hpre : ∀ x ∈ pre, ¬ ((numChannels p x false).outcome ≠ .ret 0 ∧
      cstr (p.deviceName x) = cstr outputName))
    (hcount : (numChannels p d false).outcome ≠ .ret 0)
    (hmatch : cstr (p.deviceName d) = cstr outputName) :
    (getOutputDevice p outputName).outcome = .ret d := by
  rw [getOutputDevice_outcome p outputName hsize hdata, hdev,
    getOutputDevice.loop_append_skip p outputName _ pre hnames hpre]
  exact getOutputDevice.loop_take p outputName d post hname hcount hmatch

/-- Below 2^31 channels `numChannels` returns the output channel count of the
specification: the sum over the buffers, or 0 when a query fails. -/
theorem numChannels_eq_outputChannelCount (p : Platform) (id : Nat)
    (h : outputChannelCount p id < 2147483648) :
    (numChannels p id false).outcome = .ret (outputChannelCount p id : Nat) := by
  have hout := numChannels_outcome p id false
  have hscope : numChannels.scope false = kAudioDevicePropertyScopeOutput := rfl
  rw [hscope] at hout
  unfold outputChannelCount at h ⊢
  by_cases hq : (p.streamConfiguration id kAudioDevicePropertyScopeOutput).sizeStatus = 0 ∧
      (p.streamConfiguration id kAudioDevicePropertyScopeOutput).dataStatus = 0
  · rw [if_pos hq] at h hout ⊢
    rw [hout, numChannels.foldl_eq, toInt32_of_range _ (by omega) (by omega)]
  · rw [if_neg hq] at hout ⊢
    rw [hout]
    rfl

theorem numChannels_ne_zero_iff_count_pos (p : Platform) (id : Nat)
    (h : outputChannelCount p id < 2147483648) :
    (numChannels p id false).outcome ≠ .ret 0 ↔ 0 < outputChannelCount p id := by
  rw [numChannels_ne_zero_iff p id _ (numChannels_eq_outputChannelCount p id h)]
  omega

/-- The claim C1 as the specification states it, for devices of fewer than 2^31
output channels: when the enumeration succeeds and some device has an output
channel count greater than zero and a display name equal, byte for byte, to
the requested name, `getOutputDevice` returns the identifier of the first
such device in enumeration order. -/
theorem getOutputDevice_first_positive (p : Platform) (outputName : List Nat)
    (pre post : List Nat) (d : Nat)
    (hsize : p.devicesSizeStatus = 0) (hdata : p.devicesDataStatus = 0)
    (hdev : p.devices = pre ++ d :: post)
    (hnames : ∀ x ∈ pre, p.deviceNameStatus x = 0) (hname : p.deviceNameStatus d = 0)
    (hbound : ∀ x ∈ pre, outputChannelCount p x < 2147483648)
    (hboundd : outputChannelCount p d < 2147483648)
    (hpre : ∀ x ∈ pre, ¬ (0 < outputChannelCount p x ∧
      cstr (p.deviceName x) = cstr outputName))
    (hcount : 0 < outputChannelCount p d)
    (hmatch : cstr (p.deviceName d) = cstr outputName) :
    (getOutputDevice p outputName).outcome = .ret d := by
  apply getOutputDevice_first_match p outputName pre post d hsize hdata hdev hnames hname
  · intro x hx hq
    exact hpre x hx ⟨(numChannels_ne_zero_iff_count_pos p x (hbound x hx)).1 hq.1, hq.2⟩
  · exact (numChannels_ne_zero_iff_count_pos p d hboundd).2 hcount
  · exact hmatch

/-- On the sample machine the microphone (no output channel) is passed over and
"Built-in Output" resolves to device 42, the first of the two devices of
that name. -/
theorem getOutputDevice_studio :
    (getOutputDevice studio (ascii "Built-in Output")).outcome = .ret 42 :=
  getOutputDevice_first_positive studio (ascii "Built-in Output") [41] [43] 42 rfl rfl rfl
    (by decide) rfl (by decide) (by decide) (by decide) (by decide) (by decide)

/-- C1, at the failing input: the three devices all carry the requested name.
Device 1 has 4294967296 output channels in all, which `numChannels` reports
as 0; device 2 has 2147483648, reported as -2147483648; device 3 has 2.  The
first device with an output channel count greater than zero and the requested
name is device 1 (device 3 if the count is the one `numChannels` reports),
and `getOutputDevice` returns 2. -/
theorem getOutputDevice_wrapped_counts :
    wrapped.devices = [1, 2, 3] ∧
    (∀ id ∈ wrapped.devices, wrapped.deviceNameStatus id = 0 ∧
      cstr (wrapped.deviceName id) = cstr (ascii "USB DAC")) ∧
    outputChannelCount wrapped 1 = 4294967296 ∧
    outputChannelCount wrapped 2 = 2147483648 ∧
    outputChannelCount wrapped 3 = 2 ∧
    (numChannels wrapped 1 false).outcome = .ret 0 ∧
    (numChannels wrapped 2 false).outcome = .ret (-2147483648) ∧
    (numChannels wrapped 3 false).outcome = .ret 2 ∧
    (getOutputDevice wrapped (ascii "USB DAC")).outcome = .ret 2 := by
  decide

/-- C2: the resolved device identifier is the default 0 in three cases: with
`argc` = 2 `main` resolves 0 without any framework call (and goes on exactly
as with device 0); with an empty device list `getOutputDevice` returns 0; and
when no enumerated device has a display name equal to the requested name
`getOutputDevice` returns 0. -/
theorem deviceId_default (p : Platform) (outputName : List Nat) (argv : List (List Nat)) :
    (argv.length = 2 →
      main.deviceId p argv = ⟨[], .ret 0⟩ ∧ main p argv = main.play p argv 0) ∧
    (p.devicesSizeStatus = 0 → p.devicesDataStatus = 0 → p.devices = [] →
      (getOutputDevice p outputName).outcome = .ret 0) ∧
    (p.devicesSizeStatus = 0 → p.devicesDataStatus = 0 →
      (∀ x ∈ p.devices, p.deviceNameStatus x = 0) →
      (∀ x ∈ p.devices, cstr (p.deviceName x) ≠ cstr outputName) →
      (getOutputDevice p outputName).outcome = .ret 0) := by
  refine ⟨?_, ?_, ?_⟩
  · intro h
    have hid : main.deviceId p argv = ⟨[], .ret 0⟩ := by
      simp [main.deviceId, h, Run.pure_eq]
    refine ⟨hid, ?_⟩
    simp only [main, h, hid, Run.bind_eq, Run.bind_ret, List.nil_append]
    rfl
  · intro hsize hdata hdev
    rw [getOutputDevice_outcome p outputName hsize hdata, hdev]
    rfl
  · intro hsize hdata hnames hno
    rw [getOutputDevice_outcome p outputName hsize hdata]
    have h := getOutputDevice.loop_append_skip p outputName [] p.devices hnames
      (fun x hx hq => hno x hx hq.2)
    rw [List.append_nil] at h
    rw [h]
    rfl

/-- Witness for C2: no device argument, no device at all, and a name that no
device of the sample machine carries. -/
theorem deviceId_default_witness :
    main.deviceId studio [ascii "playto", ascii "song.mp3"] = ⟨[], .ret 0⟩ ∧
    (getOutputDevice { studio with devices := [] } (ascii "Built-in Output")).outcome = .ret 0 ∧
    (getOutputDevice studio (ascii "NonexistentCard")).outcome = .ret 0 :=
  ⟨((deviceId_default studio [] [ascii "playto", ascii "song.mp3"]).1 rfl).1,
   (deviceId_default { studio with devices := [] } (ascii "Built-in Output") []).2.1 rfl rfl rfl,
   (deviceId_default studio (ascii "NonexistentCard") []).2.2 rfl rfl (by decide) (by decide)⟩

/-- C3: a device whose `numChannels` result is 0 is passed over whatever its
name, and the search goes on with the next device: the outcome is that of the
search without it.  Hence whenever `getOutputDevice` returns, the value is
either the default 0 with no device taken, or the identifier of a device with
a non-zero `numChannels` result and the requested name, no device before it
being one. -/
theorem getOutputDevice_skips_zero_channels (p : Platform) (outputName : List Nat) :
    (∀ (pre post : List Nat) (d : Nat),
      p.devicesSizeStatus = 0 → p.devicesDataStatus = 0 → p.devices = pre ++ d :: post →
      p.deviceNameStatus d = 0 → (numChannels p d false).outcome = .ret 0 →
      (getOutputDevice p outputName).outcome =
        (getOutputDevice.loop p outputName (pre ++ post)).outcome) ∧
    (∀ r, (getOutputDevice p outputName).outcome = .ret r →
      (r = 0 ∧ ∀ x ∈ p.devices, ¬ ((numChannels p x false).outcome ≠ .ret 0 ∧
          cstr (p.deviceName x) = cstr outputName)) ∨
      (∃ pre post, p.devices = pre ++ r :: post ∧
        (numChannels p r false).outcome ≠ .ret 0 ∧ cstr (p.deviceName r) = cstr outputName ∧
        ∀ x ∈ pre, ¬ ((numChannels p x false).outcome ≠ .ret 0 ∧
          cstr (p.deviceName x) = cstr outputName))) := by
  constructor
  · intro pre post d hsize hdata hdev hname hzero
    rw [getOutputDevice_outcome p outputName hsize hdata, hdev]
    apply getOutputDevice.loop_append_congr
    exact getOutputDevice.loop_skip p outputName d post hname (fun hq => hq.1 hzero)
  · intro r h
    by_cases hsize : p.devicesSizeStatus = 0
    · by_cases hdata : p.devicesDataStatus = 0
      · rw [getOutputDevice_outcome p outputName hsize hdata] at h
        exact getOutputDevice.loop_ret p outputName p.devices r h
      · exfalso
        obtain ⟨msg, hmsg⟩ := CheckError_of_ne p.stack _
          (ascii "AudioObjectGetPropertyData failed") hdata
        simp [getOutputDevice, hsize, hmsg, CheckError_noErr, call, Run.bind_eq, Run.bind] at h
    · exfalso
      obtain ⟨msg, hmsg⟩ := CheckError_of_ne p.stack _
        (ascii "AudioObjectGetPropertyDataSize failed") hsize
      simp [getOutputDevice, hmsg, call, Run.bind_eq, Run.bind] at h

/-- Witness for C3: asked for "Built-in Microphone", the sample machine passes
over device 41, which has that name and no output channel, and ends with the
default 0, as if device 41 were not there. -/
theorem getOutputDevice_skips_zero_channels_witness :
    (numChannels studio 41 false).outcome = .ret 0 ∧
    cstr (studio.deviceName 41) = ascii "Built-in Microphone" ∧
    (getOutputDevice studio (ascii "Built-in Microphone")).outcome = .ret 0 :=
  ⟨by decide, by decide,
   ((getOutputDevice_skips_zero_channels studio (ascii "Built-in Microphone")).1
      [] [42, 43] 41 rfl rfl rfl rfl (by decide)).trans (by decide)⟩

/-- When both queries succeed on a configuration of fewer than 2^31 channels in
all, the result of `numChannels` is not zero exactly when the device has an
output channel: for such devices "non-zero" and "greater than zero" agree. -/
theorem numChannels_ne_zero_iff_pos (p : Platform) (deviceID : Nat)
    (hsize : (p.streamConfiguration deviceID kAudioDevicePropertyScopeOutput).sizeStatus = 0)
    (hdata : (p.streamConfiguration deviceID kAudioDevicePropertyScopeOutput).dataStatus = 0)
    (hsum : (p.streamConfiguration deviceID kAudioDevicePropertyScopeOutput).mBuffers.sum
      < 2147483648) :
    (numChannels p deviceID false).outcome ≠ .ret 0 ↔
      0 < (p.streamConfiguration deviceID kAudioDevicePropertyScopeOutput).mBuffers.sum := by
  have hout := numChannels_outcome p deviceID false
  have hscope : numChannels.scope false = kAudioDevicePropertyScopeOutput := rfl
  rw [hscope, if_pos ⟨hsize, hdata⟩, numChannels.foldl_eq,
    toInt32_of_range _ (by omega) (by omega)] at hout
  rw [numChannels_ne_zero_iff p deviceID _ hout]
  omega

/-- When both queries succeed `numChannels` returns the sum of the channel
counts of every buffer of the output stream configuration as the 32-bit `int`
arithmetic of line 136 computes it, which is the sum itself whenever that is
below 2^31; when the size query or the data query fails it returns 0, the
process goes on, and `getOutputDevice` passes over the device. -/
theorem numChannels_sum_or_zero (p : Platform) (deviceID : Nat) :
    ((p.streamConfiguration deviceID kAudioDevicePropertyScopeOutput).sizeStatus = 0 →
      (p.streamConfiguration deviceID kAudioDevicePropertyScopeOutput).dataStatus = 0 →
      (numChannels p deviceID false).outcome = .ret (toInt32
        ((p.streamConfiguration deviceID kAudioDevicePropertyScopeOutput).mBuffers.sum : Nat)) ∧
      ((p.streamConfiguration deviceID kAudioDevicePropertyScopeOutput).mBuffers.sum
          < 2147483648 →
        (numChannels p deviceID false).outcome = .ret
          ((p.streamConfiguration deviceID kAudioDevicePropertyScopeOutput).mBuffers.sum : Nat))) ∧
    ((p.streamConfiguration deviceID kAudioDevicePropertyScopeOutput).sizeStatus ≠ 0 ∨
      (p.streamConfiguration deviceID kAudioDevicePropertyScopeOutput).dataStatus ≠ 0 →
      (numChannels p deviceID false).outcome = .ret 0 ∧
      ∀ (outputName devids : List Nat), p.deviceNameStatus deviceID = 0 →
        (getOutputDevice.loop p outputName (deviceID :: devids)).outcome =
          (getOutputDevice.loop p outputName devids).outcome) := by
  have hout := numChannels_outcome p deviceID false
  have hscope : numChannels.scope false = kAudioDevicePropertyScopeOutput := rfl
  rw [hscope] at hout
  constructor
  · intro hsize hdata
    rw [if_pos ⟨hsize, hdata⟩, numChannels.foldl_eq] at hout
    refine ⟨hout, ?_⟩
    intro hlt
    rw [hout, toInt32_of_range _ (by omega) (by omega)]
  · intro hfail
    have hzero : (numChannels p deviceID false).outcome = .ret 0 := by
      rw [hout, if_neg]
      rintro ⟨h1, h2⟩
      rcases hfail with h | h
      · exact h h1
      · exact h h2
    refine ⟨hzero, ?_⟩
    intro outputName devids hname
    exact getOutputDevice.loop_skip p outputName deviceID devids hname (fun hq => hq.1 hzero)

/-- On the sample machines: the two mono buffers of device 43 add up to 2; with
the data query failing the count is 0 and "Built-in Output" resolves to
nothing. -/
theorem numChannels_studio :
    (numChannels studio 43 false).outcome = .ret 2 ∧
    (numChannels mute 42 false).outcome = .ret 0 ∧
    (getOutputDevice.loop mute (ascii "Built-in Output") [42]).outcome = .ret 0 :=
  ⟨(((numChannels_sum_or_zero studio 43).1 rfl rfl).2 (by decide)).trans (by decide),
   ((numChannels_sum_or_zero mute 42).2 (Or.inr (by decide))).1,
   (((numChannels_sum_or_zero mute 42).2 (Or.inr (by decide))).2
      (ascii "Built-in Output") [] rfl).trans (by decide)⟩

/-- C4, at the failing input: both queries succeed on a configuration of one
buffer with 2147483648 channels, and `numChannels` returns -2147483648, not
the sum 2147483648. -/
theorem numChannels_wrapped_sum :
    (wrapped.streamConfiguration 2 kAudioDevicePropertyScopeOutput).sizeStatus = 0 ∧
    (wrapped.streamConfiguration 2 kAudioDevicePropertyScopeOutput).dataStatus = 0 ∧
    (wrapped.streamConfiguration 2 kAudioDevicePropertyScopeOutput).mBuffers.sum = 2147483648 ∧
    (numChannels wrapped 2 false).outcome = .ret (-2147483648) := by
  decide

/-! ## The file scheduler -/

/-- The region starts at frame 0, never loops, and covers the whole file
whenever the file has fewer than 2^32 frames. -/
theorem PrepareFileAU.rgn_whole_file (player : MyAUGraphPlayer) (nPackets : Nat)
    (h : nPackets * player.inputFormat.mFramesPerPacket < 4294967296) :
    (PrepareFileAU.rgn player nPackets).mStartFrame = 0 ∧
    (PrepareFileAU.rgn player nPackets).mLoopCount = 0 ∧
    (PrepareFileAU.rgn player nPackets).mFramesToPlay
      = nPackets * player.inputFormat.mFramesPerPacket := by
  refine ⟨rfl, rfl, ?_⟩
  simp only [PrepareFileAU.rgn, toUInt32, toUInt64]
  omega

/-- In general the frame count of the region is the total reduced modulo 2^32. -/
theorem PrepareFileAU.rgn_frames (player : MyAUGraphPlayer) (nPackets : Nat) :
    (PrepareFileAU.rgn player nPackets).mFramesToPlay
      = nPackets * player.inputFormat.mFramesPerPacket % 4294967296 := by
  simp only [PrepareFileAU.rgn, toUInt32, toUInt64]
  omega

/-- C6, at the failing input: for a file of 3728271 packets of 1152 frames
(4294968192 frames) `PrepareFileAU` schedules a region that starts at frame
0 and does not loop but plays 896 frames only, while the duration it returns
is computed from all the 4294968192 frames. -/
theorem PrepareFileAU_region_truncated :
    (marathon.filePacketCount marathonPlayer.inputFile).2
      * marathonPlayer.inputFormat.mFramesPerPacket = 4294968192 ∧
    Call.AudioUnitSetProperty 102 kAudioUnitProperty_ScheduledFileRegion kAudioUnitScope_Global 0
      (.region
        { mTimeStamp := { mSampleTime := 0, mFlags := 1 }
          mCompletionProc := 0
          mCompletionProcUserData := 0
          mAudioFile := 5
          mLoopCount := 0
          mStartFrame := 0
          mFramesToPlay := 896 }) ∈ (PrepareFileAU marathon marathonPlayer).calls ∧
    (PrepareFileAU marathon marathonPlayer).outcome =
      .ret (Float64.div (Float64.ofUInt64 4294968192) (.finite false 44100 0)) := by
  decide

/-! ## The command line -/

/-- C9: with fewer than two arguments `main` writes the three lines of the
usage text to standard output and returns -1, which a POSIX parent sees as
the exit status 255; it makes no framework call at all and writes nothing to
standard error. -/
theorem main_usage (p : Platform) (argv : List (List Nat)) (h : argv.length < 2) :
    main p argv =
      ⟨[.stdout (ascii "playto - audio player that can output to a certain device.\n"),
        .stdout (ascii "Usage: playto filename [output device name].\n"),
        .stdout (ascii "Ex: playto /path/to/foo.mp3 My\\ Nice\\ Sound\\ Card\n")],
       .ret (-1)⟩ ∧
    (main p argv).calls = [] ∧ (main p argv).stderr = [] ∧ exitStatus (-1) = 255 := by
  have hmain : main p argv =
      ⟨[.stdout (ascii "playto - audio player that can output to a certain device.\n"),
        .stdout (ascii "Usage: playto filename [output device name].\n"),
        .stdout (ascii "Ex: playto /path/to/foo.mp3 My\\ Nice\\ Sound\\ Card\n")],
       .ret (-1)⟩ := by
    simp only [main, h, if_true, printf, Run.bind_eq, Run.bind_ret, Run.pure_eq]
    rfl
  refine ⟨hmain, ?_, ?_, by decide⟩
  · rw [hmain]; rfl
  · rw [hmain]; rfl

/-- Witness for C9: the program run with its name alone. -/
theorem main_usage_witness :
    (main studio [ascii "playto"]).outcome = .ret (-1) ∧ (main studio [ascii "playto"]).calls = [] :=
  ⟨by rw [(main_usage studio [ascii "playto"] (by decide)).1],
   (main_usage studio [ascii "playto"] (by decide)).2.1⟩

/-! ## The graph builder -/

theorem call_bind {α β : Type} (c : Call) (a : α) (f : α → Run β) :
    (call c a >>= f) = ⟨.call c :: (f a).events, (f a).outcome⟩ := rfl

theorem printf_bind {β : Type} (bytes : List Nat) (f : Unit → Run β) :
    (printf bytes >>= f) = ⟨.stdout bytes :: (f ()).events, (f ()).outcome⟩ := rfl

theorem CheckError_bind {β : Type} (str : Mem) (error : Int) (operation : List Nat)
    (f : Unit → Run β) :
    (CheckError str error operation >>= f) =
      if error = 0 then f () else ⟨(CheckError str error operation).events, .exit 1⟩ := by
  by_cases h : error = 0
  · subst h
    rw [CheckError_noErr, if_pos rfl]
    rfl
  · obtain ⟨msg, hmsg⟩ := CheckError_of_ne str error operation h
    rw [if_neg h, hmsg]
    rfl

theorem CheckError_calls (str : Mem) (error : Int) (operation : List Nat) :
    (CheckError str error operation).calls = [] := by
  by_cases h : error = 0
  · subst h
    rw [CheckError_noErr]
    rfl
  · obtain ⟨msg, hmsg⟩ := CheckError_of_ne str error operation h
    rw [hmsg]
    rfl

theorem Run.bind_assoc {α β γ : Type} (r : Run α) (f : α → Run β) (g : β → Run γ) :
    ((r >>= f) >>= g) = (r >>= fun a => f a >>= g) := by
  rcases r with ⟨es, oc⟩
  cases oc with
  | exit code => rfl
  | ret a =>
    simp only [Run.bind_eq, Run.bind]
    rcases hf : f a with ⟨es2, oc2⟩
    cases oc2 with
    | exit code => simp
    | ret b => simp

theorem Run.ite_bind {α β : Type} (c : Prop) [Decidable c] (a b : Run α) (f : α → Run β) :
    ((if c then a else b) >>= f) = if c then a >>= f else b >>= f := by
  split <;> rfl

theorem Run.pure_bind {α β : Type} (a : α) (f : α → Run β) : (pure a >>= f) = f a := by
  simp only [Run.bind_eq, Run.pure_eq, Run.bind_ret, List.nil_append]

theorem Run.calls_pure {α : Type} (a : α) : (pure a : Run α).calls = [] := rfl

theorem Run.calls_ite {α : Type} (c : Prop) [Decidable c] (a b : Run α) :
    (if c then a else b).calls = if c then a.calls else b.calls := by
  split <;> rfl

theorem Run.calls_call_bind {α β : Type} (c : Call) (a : α) (f : α → Run β) :
    (call c a >>= f).calls = c :: (f a).calls := rfl

theorem Run.calls_printf_bind {β : Type} (bytes : List Nat) (f : Unit → Run β) :
    (printf bytes >>= f).calls = (f ()).calls := rfl

theorem Run.calls_CheckError_bind {β : Type} (str : Mem) (error : Int) (operation : List Nat)
    (f : Unit → Run β) :
    (CheckError str error operation >>= f).calls = if error = 0 then (f ()).calls else [] := by
  rw [CheckError_bind]
  split
  · rfl
  · exact CheckError_calls str error operation

theorem CreateMyAUGraph_calls_prefix (p : Platform) (player : MyAUGraphPlayer) (deviceId : Nat) :
    (CreateMyAUGraph p player deviceId).calls <+: CreateMyAUGraph.steps p deviceId := by
  unfold CreateMyAUGraph CreateMyAUGraph.steps SetOutput getDeviceName
  simp only [Run.bind_assoc, Run.ite_bind, Run.pure_bind, Run.calls_call_bind,
    Run.calls_printf_bind, Run.calls_CheckError_bind, Run.calls_pure, Run.calls_ite]
  by_cases h1 : p.newAUGraph.1 = 0
  swap
  · simp [h1]
  rw [if_pos h1]
  split
  swap
  · simp
  split
  swap
  · simp
  split
  swap
  · simp
  split
  swap
  · simp
  split
  swap
  · simp
  by_cases hd : deviceId > 0
  · simp only [hd, if_true]
    split
    swap
    · simp
    split
    swap
    · simp
    split
    swap
    · simp
    simp
  · simp [hd]

theorem Run.outcome_ite {α : Type} (c : Prop) [Decidable c] (a b : Run α) :
    (if c then a else b).outcome = if c then a.outcome else b.outcome := by
  split <;> rfl

theorem Run.outcome_call_bind {α β : Type} (c : Call) (a : α) (f : α → Run β) :
    (call c a >>= f).outcome = (f a).outcome := rfl

theorem Run.outcome_printf_bind {β : Type} (bytes : List Nat) (f : Unit → Run β) :
    (printf bytes >>= f).outcome = (f ()).outcome := rfl

theorem Run.outcome_CheckError_bind {β : Type} (str : Mem) (error : Int) (operation : List Nat)
    (f : Unit → Run β) :
    (CheckError str error operation >>= f).outcome =
      if error = 0 then (f ()).outcome else .exit 1 := by
  rw [CheckError_bind]
  split <;> rfl

theorem CreateMyAUGraph_of_succeed (p : Platform) (player : MyAUGraphPlayer) (deviceId : Nat)
    (h : p.graphCallsSucceed) :
    (CreateMyAUGraph p player deviceId).calls = CreateMyAUGraph.steps p deviceId ∧
    ∃ built, (CreateMyAUGraph p player deviceId).outcome = .ret built := by
  obtain ⟨h1, h2, h3, h4, h5, h6, h7, h8⟩ := h
  constructor
  · unfold CreateMyAUGraph CreateMyAUGraph.steps SetOutput getDeviceName
    simp only [Run.bind_assoc, Run.ite_bind, Run.pure_bind, Run.calls_call_bind,
      Run.calls_printf_bind, Run.calls_CheckError_bind, Run.calls_pure, Run.calls_ite,
      h1, h2, h3, h4, h5, h6, h7, h8, if_true]
    split <;> simp
  · unfold CreateMyAUGraph SetOutput getDeviceName
    simp only [Run.bind_assoc, Run.ite_bind, Run.pure_bind, Run.outcome_call_bind,
      Run.outcome_printf_bind, Run.outcome_CheckError_bind, Run.outcome_ite,
      h1, h2, h3, h4, h5, h6, h7, h8, if_true]
    split <;> exact ⟨_, rfl⟩

theorem List.prefix_concat_cases {α : Type} (l body : List α) (x : α)
    (h : l <+: body ++ [x]) : l <+: body ∨ l = body ++ [x] := by
  obtain ⟨t, ht⟩ := h
  rcases List.eq_nil_or_concat t with rfl | ⟨t2, y, rfl⟩
  · right
    simpa using ht
  · left
    rw [List.concat_eq_append, ← List.append_assoc] at ht
    have := List.append_inj_left' ht rfl
    exact ⟨t2, this⟩

/-- C10: in `CreateMyAUGraph`, whenever the graph is initialized that call is
the last framework call and the only initialization, and for a device
identifier other than 0 the current-device property of the output node's unit
has been set to exactly that identifier before it; the current-device property
is only ever set for an identifier other than 0, and only to that identifier;
and when the framework calls succeed the graph is initialized and
`CreateMyAUGraph` returns. -/
theorem CreateMyAUGraph_device_bound_first (p : Platform) (player : MyAUGraphPlayer)
    (deviceId : Nat) :
    (∀ g, Call.AUGraphInitialize g ∈ (CreateMyAUGraph p player deviceId).calls →
      ∃ before, (CreateMyAUGraph p player deviceId).calls = before ++ [Call.AUGraphInitialize g] ∧
        (∀ g2, Call.AUGraphInitialize g2 ∉ before) ∧
        (deviceId ≠ 0 →
          Call.AudioUnitSetProperty
            (p.nodeInfo p.newAUGraph.2
              (p.addNode p.newAUGraph.2
                ⟨kAudioUnitType_Output, kAudioUnitSubType_DefaultOutput,
                  kAudioUnitManufacturer_Apple⟩).2).2
            kAudioOutputUnitProperty_CurrentDevice kAudioUnitScope_Global 0
            (.deviceID deviceId) ∈ before)) ∧
    (∀ unit scope element value,
      Call.AudioUnitSetProperty unit kAudioOutputUnitProperty_CurrentDevice scope element value
        ∈ (CreateMyAUGraph p player deviceId).calls →
      deviceId ≠ 0 ∧ value = .deviceID deviceId) ∧
    (p.graphCallsSucceed →
      Call.AUGraphInitialize p.newAUGraph.2 ∈ (CreateMyAUGraph p player deviceId).calls ∧
      ∃ built, (CreateMyAUGraph p player deviceId).outcome = .ret built) := by
  have hpre := CreateMyAUGraph_calls_prefix p player deviceId
  refine ⟨?_, ?_, ?_⟩
  · intro g hg
    have hcases := List.prefix_concat_cases _ _ _
      (by simpa only [CreateMyAUGraph.steps] using hpre)
    rcases hcases with hbody | hall
    · exfalso
      have := hbody.subset hg
      by_cases hd : deviceId > 0 <;> simp [hd] at this
    · have hg2 := hg
      rw [hall] at hg2
      have hgeq : g = p.newAUGraph.2 := by
        by_cases hd : deviceId > 0 <;> simpa [hd] using hg2
      subst hgeq
      refine ⟨_, hall, ?_, ?_⟩
      · intro g2
        by_cases hd : deviceId > 0 <;> simp [hd]
      · intro hne
        have hd : deviceId > 0 := Nat.pos_of_ne_zero hne
        simp [hd]
  · intro unit scope element value hmem
    have := hpre.subset hmem
    by_cases hd : deviceId > 0
    · simp only [CreateMyAUGraph.steps, hd, if_true] at this
      simp at this
      exact ⟨by omega, this.2.2⟩
    · simp [CreateMyAUGraph.steps, hd] at this
  · intro hok
    obtain ⟨hcalls, hret⟩ := CreateMyAUGraph_of_succeed p player deviceId hok
    refine ⟨?_, hret⟩
    rw [hcalls]
    simp [CreateMyAUGraph.steps]

/-- Witness for C10: on the sample machine, with device 42 resolved, the calls
of `CreateMyAUGraph` end with the binding of unit 101, the output node's, to
device 42 and then the initialization of the graph; with device 0 nothing is
bound. -/
theorem CreateMyAUGraph_device_bound_first_witness :
    (Call.AUGraphInitialize 7 ∈ (CreateMyAUGraph studio ⟨⟨.finite false 0 0, 0⟩, 5, 0, 0⟩ 42).calls ∧
      ∃ built, (CreateMyAUGraph studio ⟨⟨.finite false 0 0, 0⟩, 5, 0, 0⟩ 42).outcome = .ret built) ∧
    (CreateMyAUGraph studio ⟨⟨.finite false 0 0, 0⟩, 5, 0, 0⟩ 42).calls.drop 8 =
      [.AudioUnitSetProperty 101 kAudioOutputUnitProperty_CurrentDevice kAudioUnitScope_Global 0
          (.deviceID 42),
        .AUGraphInitialize 7] ∧
    (CreateMyAUGraph studio ⟨⟨.finite false 0 0, 0⟩, 5, 0, 0⟩ 0).calls.drop 5 =
      [.AUGraphConnectNodeInput 7 2 0 1 0, .AUGraphInitialize 7] :=
  ⟨(CreateMyAUGraph_device_bound_first studio ⟨⟨.finite false 0 0, 0⟩, 5, 0, 0⟩ 42).2.2
      ⟨rfl, fun _ _ => rfl, fun _ => rfl, fun _ _ => rfl, fun _ _ _ _ _ => rfl, fun _ => rfl,
        fun _ _ _ => rfl, fun _ => rfl⟩,
   by decide, by decide⟩

/-! ## The duration -/

/-- The rounding at work: 2^53 + 1 and 2^53 + 3 lie halfway between two
`double`s and go to the even one, 2^53 and 2^53 + 4; 1/3 is
6004799503160661·2^-54; 1/0 is infinite and 0/0 is not a number. -/
theorem Float64.round_samples :
    Float64.ofUInt64 9007199254740993 = .finite false 4503599627370496 1 ∧
    Float64.ofUInt64 9007199254740995 = .finite false 4503599627370498 1 ∧
    Float64.div (Float64.ofUInt64 1) (.finite false 3 0)
      = .finite false 6004799503160661 (-54) ∧
    Float64.div (Float64.ofUInt64 1) (.finite false 0 0) = .inf false ∧
    Float64.div (Float64.ofUInt64 0) (.finite false 0 0) = .nan := by
  decide

/-- The sleep of `main` (line 265) on the two sample files: 26122448 microseconds
for the file of 1152000 frames; for the file of 4294968192 frames the product
97391568979 exceeds `useconds_t` and 2902288467 is what `usleep` receives. -/
theorem main_usleep :
    Call.usleep 26122448 ∈ (main studio [ascii "playto", ascii "song.mp3"]).calls ∧
    Call.usleep 2902288467 ∈ (main marathon [ascii "playto", ascii "marathon.mp3"]).calls := by
  decide

end Playto
